import Mathlib

/-!
# Verification of the DomusJS project scaffolder (`src/bin/index.js`)

Shallow embedding of the interactive scaffolder: prompt collection with
validation, registry version probing, package-manager detection, manifest
assembly, artifact emission and the install subprocess.  External effects
(registry queries, subprocess probes, the install run) are supplied through
an explicit environment; the script body becomes a function from that
environment and the prompt answers to the observable run result (directory
creations, file writes, install invocation, exit code).
-/

/-! ## JSON values and `JSON.stringify(·, null, 2)` -/

/-- JSON values appearing in the generated manifests (strings, booleans,
arrays, key-ordered objects). -/
inductive Json where
  | str : String → Json
  | bool : Bool → Json
  | arr : List Json → Json
  | obj : List (String × Json) → Json

/-- Indentation helper: `n` spaces, the unit of `JSON.stringify` output. -/
def spaces (n : Nat) : String :=
  String.mk (List.replicate n ' ')

/-- JSON string escaping as performed by `JSON.stringify`. -/
def jsonEscape (s : String) : String :=
  s.data.foldl (fun acc c =>
    acc ++ (if c = '"' then "\\\""
      else if c = '\\' then "\\\\"
      else if c = '\n' then "\\n"
      else if c = '\t' then "\\t"
      else if c = '\r' then "\\r"
      else String.singleton c)) ""

/-- A JSON string literal: escaped content between double quotes. -/
def jsonQuote (s : String) : String :=
  "\"" ++ jsonEscape s ++ "\""

mutual

/-- Render a JSON value at member indentation `ind`, following the layout of
`JSON.stringify(value, null, 2)`. -/
def renderJson (ind : Nat) : Json → String
  | .str s => jsonQuote s
  | .bool b => if b then "true" else "false"
  | .arr [] => "[]"
  | .arr (x :: xs) =>
      "[\n" ++ String.intercalate ",\n" (renderElems (ind + 2) (x :: xs)) ++
        "\n" ++ spaces ind ++ "]"
  | .obj [] => "\x7b\x7d"
  | .obj (m :: ms) =>
      "\x7b\n" ++ String.intercalate ",\n" (renderMembers (ind + 2) (m :: ms)) ++
        "\n" ++ spaces ind ++ "\x7d"
termination_by j => sizeOf j

/-- Render each array element, indented, one string per element. -/
def renderElems (ind : Nat) : List Json → List String
  | [] => []
  | x :: xs => (spaces ind ++ renderJson ind x) :: renderElems ind xs
termination_by xs => sizeOf xs

/-- Render each `"key": value` object member, indented, one string per member. -/
def renderMembers (ind : Nat) : List (String × Json) → List String
  | [] => []
  | (k, v) :: ms =>
      (spaces ind ++ jsonQuote k ++ ": " ++ renderJson ind v) :: renderMembers ind ms
termination_by ms => sizeOf ms

end

/-- Top-level rendering, `JSON.stringify(value, null, 2)`. -/
def stringify (j : Json) : String :=
  renderJson 0 j

/-! ## Configuration collected by the prompts -/

/-- The three prompt answers: `projectName`, `typescriptVersion`, `useEslint`. -/
structure ProjectConfig where
  projectName : String
  typescriptVersion : String
  useEslint : Bool
deriving Repr, DecidableEq

/-- JavaScript string truthiness: a string is truthy iff it is non-empty. -/
def jsTruthyString (s : String) : Bool :=
  s ≠ ""

/-- The `validate` callback of the project-name prompt:
`name => name ? true : (the re-prompt message)`.  `Except.ok` means the
answer is accepted; `Except.error` carries the re-prompt message. -/
def projectNameValidate (name : String) : Except String Unit :=
  if jsTruthyString name then Except.ok () else Except.error "Project name is required"

/-! ## Manifest assembly -/

/-- The `scripts` object of `package.json`: fixed entries with the `lint`
entry spread in only when `useEslint` is set. -/
def scripts (useEslint : Bool) : List (String × String) :=
  [("build", "tsc"),
   ("dev", "ts-node-dev --respawn --transpile-only index.ts")]
  ++ (if useEslint then [("lint", "eslint . --ext .ts")] else [])
  ++ [("test", "echo \"Error: no test specified\" && exit 1")]

/-- The `devDependencies` object: fixed entries, the `typescript` entry bound
to the prompted version string, and the ESLint block spread in only when
`useEslint` is set. -/
def devDependencies (typescriptVersion : String) (useEslint : Bool) :
    List (String × String) :=
  [("@types/express", "^5.0.3"),
   ("@types/node", "^22.15.3"),
   ("ts-node", "^10.9.2"),
   ("ts-node-dev", "^2.0.0"),
   ("typescript", typescriptVersion)]
  ++ (if useEslint then
        [("eslint", "^9.29.0"),
         ("@typescript-eslint/parser", "^8.34.1"),
         ("@typescript-eslint/eslint-plugin", "^8.34.1")]
      else [])

/-- The fixed `dependencies` object of `package.json`. -/
def dependencies : List (String × String) :=
  [("@domusjs/core", "^0.1.0"),
   ("@domusjs/infrastructure", "^0.1.0"),
   ("express", "^5.1.0"),
   ("reflect-metadata", "^0.2.2"),
   ("tsyringe", "^4.9.1")]

/-- The `package.json` document, keys in insertion order. -/
def packageJsonObj (cfg : ProjectConfig) : List (String × Json) :=
  [("name", Json.str cfg.projectName),
   ("description", Json.str ""),
   ("version", Json.str "0.1.0"),
   ("main", Json.str "index.js"),
   ("scripts", Json.obj ((scripts cfg.useEslint).map (fun p => (p.1, Json.str p.2)))),
   ("keywords", Json.arr []),
   ("author", Json.str ""),
   ("license", Json.str "MIT"),
   ("dependencies", Json.obj (dependencies.map (fun p => (p.1, Json.str p.2)))),
   ("devDependencies",
     Json.obj ((devDependencies cfg.typescriptVersion cfg.useEslint).map
       (fun p => (p.1, Json.str p.2))))]

/-- Rendered `package.json` artifact content. -/
def packageJsonContent (cfg : ProjectConfig) : String :=
  stringify (Json.obj (packageJsonObj cfg))

/-- The fixed `tsconfig.json` document. -/
def tsconfigObj : List (String × Json) :=
  [("compilerOptions", Json.obj
    [("target", Json.str "es2016"),
     ("lib", Json.arr [Json.str "es2022"]),
     ("experimentalDecorators", Json.bool true),
     ("emitDecoratorMetadata", Json.bool true),
     ("module", Json.str "commonjs"),
     ("resolveJsonModule", Json.bool true),
     ("outDir", Json.str "dist"),
     ("esModuleInterop", Json.bool true),
     ("forceConsistentCasingInFileNames", Json.bool true),
     ("strict", Json.bool true),
     ("skipLibCheck", Json.bool true)])]

/-- Rendered `tsconfig.json` artifact content. -/
def tsconfigContent : String :=
  stringify (Json.obj tsconfigObj)

/-! ## Static template artifacts

The template literals of the source, transcribed line by line (braces,
apostrophes and backticks written with `\xNN` escapes). -/

/-- The `eslint.config.mjs` template literal after `.trim()`. -/
def eslintConfigContent : String :=
  String.intercalate "\n"
    ["import eslintPluginTs from \x27@typescript-eslint/eslint-plugin\x27;",
     "  import parserTs from \x27@typescript-eslint/parser\x27;",
     "  ",
     "  export default [",
     "    \x7b",
     "      files: [\x27**/*.ts\x27],",
     "      ignores: [\x27dist/**\x27, \x27node_modules/**\x27],",
     "      languageOptions: \x7b",
     "        parser: parserTs,",
     "        parserOptions: \x7b",
     "          project: \x27./tsconfig.json\x27,",
     "          sourceType: \x27module\x27",
     "        \x7d",
     "      \x7d,",
     "      plugins: \x7b",
     "        \x27@typescript-eslint\x27: eslintPluginTs",
     "      \x7d,",
     "      rules: \x7b",
     "        semi: [\x27error\x27, \x27always\x27],",
     "        quotes: [\x27error\x27, \x27single\x27],",
     "        \x27@typescript-eslint/explicit-module-boundary-types\x27: \x27off\x27",
     "      \x7d",
     "    \x7d",
     "  ];"]

/-- The `index.ts` template literal (leading and trailing newline kept). -/
def indexTsContent : String :=
  String.intercalate "\n"
    ["",
     "import \x27reflect-metadata\x27;",
     "",
     "import \x7b container \x7d from \x27tsyringe\x27;",
     "import \x7b Logger \x7d from \x27@domusjs/core\x27;",
     "import \x7b registerDomusCore, PinoLogger \x7d from \x27@domusjs/infrastructure\x27;",
     "",
     "import \x7b createServer \x7d from \x27./server\x27;",
     "",
     "async function registerDependencies() \x7b",
     "    registerDomusCore(\x7b",
     "    logger: new PinoLogger()",
     "    \x7d);",
     "\x7d",
     "",
     "async function bootstrap() \x7b",
     "    await registerDependencies(); // Register all dependencies before starting the server",
     "",
     "    const logger = container.resolve<Logger>(\x27Logger\x27);",
     "",
     "    try \x7b",
     "    const app = createServer();",
     "    const port = process.env.PORT || 3000;",
     "",
     "    app.listen(port, () => \x7b",
     "        logger.info(\x60Server running on port $\x7bport\x7d\x60);",
     "    \x7d);",
     "",
     "    process.on(\x27SIGINT\x27, async () => \x7b",
     "        logger.info(\x27Shutting down...\x27);",
     "        process.exit(0);",
     "    \x7d);",
     "",
     "    \x7d catch (err) \x7b",
     "    logger.error(\x27Error in bootstrap\x27, err);",
     "    \x7d",
     "\x7d",
     "",
     "bootstrap();",
     ""]

/-- The `server.ts` template literal (leading and trailing newline kept). -/
def serverTsContent : String :=
  String.intercalate "\n"
    ["",
     "import express from \x27express\x27;",
     "import routes from \x27./routes\x27;",
     "import \x7b errorHandler \x7d from \x27@domusjs/infrastructure\x27;",
     "",
     "export function createServer() \x7b",
     "",
     "    const app = express();",
     "",
     "    app.use(express.json());",
     "    app.use(routes);",
     "    app.use(errorHandler);",
     "",
     "    return app;",
     "\x7d",
     ""]

/-- The `routes.ts` template literal (leading and trailing newline kept). -/
def routesTsContent : String :=
  String.intercalate "\n"
    ["",
     "import \x7b Router \x7d from \x27express\x27;",
     "",
     "const router = Router();",
     "",
     "router.get(\x27/\x27, (req, res) => \x7b",
     "  res.send(\x27Hello World\x27);",
     "\x7d);",
     "",
     "export default router;",
     ""]

/-! ## Artifact emission -/

/-- A generated file: path relative to the project directory, with its fully
rendered content. -/
structure Artifact where
  relativePath : String
  content : String
deriving Repr, DecidableEq

/-- The ordered sequence of `write` calls performed by the script: manifest,
compiler config, the lint config only when `useEslint` is set, then the three
source stubs. -/
def buildArtifacts (cfg : ProjectConfig) : List Artifact :=
  [⟨"package.json", packageJsonContent cfg⟩,
   ⟨"tsconfig.json", tsconfigContent⟩]
  ++ (if cfg.useEslint then [⟨"eslint.config.mjs", eslintConfigContent⟩] else [])
  ++ [⟨"index.ts", indexTsContent⟩,
      ⟨"server.ts", serverTsContent⟩,
      ⟨"routes.ts", routesTsContent⟩]

/-! ## POSIX path resolution

`projectDir = resolve(process.cwd(), projectName)`.  Paths are modelled as
lists of segments of an absolute path; `resolve` appends the (relative) name
to the cwd and normalises `.` and `..` segments the way `path.resolve` does,
with `..` at the root staying at the root. -/

/-- Split a character list on `/`, accumulating the current segment. -/
def splitSegsAux : List Char → List Char → List (List Char)
  | [], cur => [cur.reverse]
  | c :: cs, cur =>
      if c = '/' then cur.reverse :: splitSegsAux cs []
      else splitSegsAux cs (c :: cur)

/-- Split a path string on `/`, dropping empty segments. -/
def splitPath (s : String) : List String :=
  ((splitSegsAux s.data []).map (fun cs => String.mk cs)).filter (fun seg => seg ≠ "")

/-- A path string is absolute iff it starts with `/`. -/
def isAbsolutePath (s : String) : Bool :=
  s.data.head? = some '/'

/-- Normalise the segments of an absolute path: drop `.` and empty segments,
let `..` pop the previous segment (or stay at the root). -/
def normAbs (segs : List String) : List String :=
  segs.foldl (fun acc seg =>
    if seg = "" ∨ seg = "." then acc
    else if seg = ".." then acc.dropLast
    else acc ++ [seg]) []

/-- Resolution as in `path.resolve(cwd, name)` for an absolute `cwd`, as a segment list. -/
def resolvePath (cwd name : String) : List String :=
  if isAbsolutePath name then normAbs (splitPath name)
  else normAbs (splitPath cwd ++ splitPath name)

/-- Joining as in `path.join(projectDir, file)`: the path of the file beneath the directory. -/
def joinPath (dir : List String) (file : String) : List String :=
  dir ++ splitPath file

/-! ## Environment and subprocess probes -/

/-- Why an external subprocess invocation can fail. -/
inductive ProbeError where
  | networkError
  | nonZeroExit
  | timeout
deriving Repr, DecidableEq

/-- Host environment: outcome of each `execSync` the script may issue.
`npmView pkg version` is `npm view pkg@version version`, `cmdVersion cmd` is
`cmd --version`, and `install pm dir` is `pm install` run in `dir`, failing
with the non-zero exit status of the subprocess. -/
structure Env where
  npmView : String → String → Except ProbeError Unit
  cmdVersion : String → Except ProbeError Unit
  install : String → List String → Except Nat Unit

/-- The check `versionExists(pkg, version)`: one `npm view` query inside try/catch;
any failure is caught and becomes `false`. -/
def versionExists (env : Env) (pkg version : String) : Bool :=
  match env.npmView pkg version with
  | Except.ok _ => true
  | Except.error _ => false

/-- The `has(cmd)` helper of `detectPackageManager`: `cmd --version` inside
try/catch, any failure becoming `false`. -/
def has (env : Env) (cmd : String) : Bool :=
  match env.cmdVersion cmd with
  | Except.ok _ => true
  | Except.error _ => false

/-- Detection, `detectPackageManager()`: try `pnpm`, `yarn`, `bun` in order, returning
at the first probe that succeeds, `npm` otherwise. -/
def detectPackageManager (env : Env) : String :=
  if has env "pnpm" then "pnpm"
  else if has env "yarn" then "yarn"
  else if has env "bun" then "bun"
  else "npm"

/-- The sequence of `has` probes `detectPackageManager` actually issues:
each `if` guard is evaluated only when every earlier guard was false. -/
def detectProbes (env : Env) : List String :=
  "pnpm" :: (if has env "pnpm" then []
    else "yarn" :: (if has env "yarn" then []
      else ["bun"]))

/-! ## The run pipeline -/

/-- Interaction of the operator with the three prompts: `none` means the
operator cancelled at that prompt (later prompts are then never reached). -/
structure PromptInput where
  projectName : Option String
  typescriptVersion : Option String
  useEslint : Option Bool
deriving Repr

/-- Observable outcome of one run of the script: `mkdirSync` calls (path and
`recursive` flag), `writeFileSync` calls (absolute path and content), the
working directory and command line of the install subprocess (when reached), and
the process exit code. -/
structure RunResult where
  mkdirs : List (List String × Bool)
  writes : List (List String × String)
  installCwd : Option (List String)
  installCmd : Option String
  exitCode : Nat
deriving Repr, DecidableEq

/-- The script body.  A cancelled prompt hits `onCancel`, which prints and
calls `process.exit(1)` before anything is written.  Otherwise the project
directory is created recursively, every artifact is written beneath it, and
`packageManager install` runs there via `execSync`; a non-zero install exit
makes `execSync` throw, and the uncaught exception terminates the process
with exit code 1. -/
def run (env : Env) (inp : PromptInput) (cwd : String) : RunResult :=
  match inp.projectName, inp.typescriptVersion, inp.useEslint with
  | some projectName, some typescriptVersion, some useEslint =>
      let projectDir := resolvePath cwd projectName
      let packageManager := detectPackageManager env
      let arts := buildArtifacts ⟨projectName, typescriptVersion, useEslint⟩
      { mkdirs := [(projectDir, true)],
        writes := arts.map (fun a => (joinPath projectDir a.relativePath, a.content)),
        installCwd := some projectDir,
        installCmd := some (packageManager ++ " install"),
        exitCode :=
          match env.install packageManager projectDir with
          | Except.ok _ => 0
          | Except.error _ => 1 }
  | _, _, _ =>
      { mkdirs := [], writes := [], installCwd := none, installCmd := none,
        exitCode := 1 }

/-! ## Concrete environments and prompt inputs used by witnesses -/

/-- Every registry query succeeds, no prioritized package manager is
installed, the install subprocess succeeds. -/
def envRegistryOk : Env :=
  { npmView := fun _ _ => Except.ok (),
    cmdVersion := fun _ => Except.error ProbeError.nonZeroExit,
    install := fun _ _ => Except.ok () }

/-- Like `envRegistryOk`, but the install subprocess exits with status 1. -/
def envInstallFails : Env :=
  { npmView := fun _ _ => Except.ok (),
    cmdVersion := fun _ => Except.error ProbeError.nonZeroExit,
    install := fun _ _ => Except.error 1 }

/-- The network is down: every external invocation fails. -/
def envRegistryDown : Env :=
  { npmView := fun _ _ => Except.error ProbeError.networkError,
    cmdVersion := fun _ => Except.error ProbeError.timeout,
    install := fun _ _ => Except.error 127 }

/-- Only `pnpm` answers its version probe. -/
def envPnpmOnly : Env :=
  { npmView := fun _ _ => Except.ok (),
    cmdVersion := fun cmd =>
      if cmd = "pnpm" then Except.ok () else Except.error ProbeError.nonZeroExit,
    install := fun _ _ => Except.ok () }

/-- The main scenario of the spec: `my-app`, TypeScript `5.2.2`, ESLint enabled. -/
def scenarioInput : PromptInput :=
  ⟨some "my-app", some "5.2.2", some true⟩

/-! ## Claims -/

/-- Claim C1, counterexample: in the `my-app` / `5.2.2` / ESLint-enabled
scenario the run writes six files beneath the project directory — the
manifest, the compiler config, the lint config and three source stubs — not
the five the claim states. -/
theorem C1_counterexample :
    (run envRegistryOk scenarioInput "/home/user").writes.length = 6 ∧
    (run envRegistryOk scenarioInput "/home/user").writes.length ≠ 5 :=
  ⟨rfl, by decide⟩

/-- Claim C1 (amended): in the run with project name `my-app`, dependency
version `5.2.2` existing in the registry and the feature toggle on, exactly
six artifacts are written, all under `my-app/`; among them are the lint
configuration `eslint.config.mjs` and the manifest `package.json` whose
scripts block contains a `lint` entry; the project directory is created and
the install subprocess runs with working directory `my-app`. -/
theorem C1_theorem (env : Env)
    (hreg : versionExists env "typescript" "5.2.2" = true) :
    (run env scenarioInput "/home/user").writes.length = 6 ∧
    (run env scenarioInput "/home/user").writes.all
      (fun w => ["home", "user", "my-app"].isPrefixOf w.1) = true ∧
    ((run env scenarioInput "/home/user").writes.map Prod.fst).contains
      ["home", "user", "my-app", "eslint.config.mjs"] = true ∧
    ((run env scenarioInput "/home/user").writes.map Prod.fst).contains
      ["home", "user", "my-app", "package.json"] = true ∧
    List.lookup "lint" (scripts true) = some "eslint . --ext .ts" ∧
    List.lookup "scripts" (packageJsonObj ⟨"my-app", "5.2.2", true⟩)
      = some (Json.obj ((scripts true).map (fun p => (p.1, Json.str p.2)))) ∧
    (run env scenarioInput "/home/user").mkdirs = [(["home", "user", "my-app"], true)] ∧
    (run env scenarioInput "/home/user").installCwd = some ["home", "user", "my-app"] :=
  ⟨rfl, rfl, rfl, rfl, rfl, rfl, rfl, rfl⟩

/-- Claim C1, witness: the amended claim instantiated at an environment in
which the registry query for TypeScript `5.2.2` succeeds. -/
theorem C1_witness :
    versionExists envRegistryOk "typescript" "5.2.2" = true ∧
    (run envRegistryOk scenarioInput "/home/user").writes.length = 6 :=
  ⟨rfl, (C1_theorem envRegistryOk rfl).1⟩

/-- Claim C2, counterexample: with every artifact written successfully and
the install subprocess exiting non-zero, the exit code of the tool is not 0 —
the `execSync` call has no try/catch, so the thrown error terminates the
process with a non-zero status. -/
theorem C2_counterexample :
    (run envInstallFails scenarioInput "/home/user").writes.length = 6 ∧
    (run envInstallFails scenarioInput "/home/user").exitCode ≠ 0 :=
  ⟨rfl, by decide⟩

/-- Claim C2 (amended): for every run in which all artifacts are written
successfully, a non-zero exit status of the install subprocess is surfaced to
the operator as an uncaught `execSync` error that terminates the tool with
exit code 1; the artifacts already written are not rolled back. -/
theorem C2_theorem (env : Env) (name tsv : String) (esl : Bool) (cwd : String)
    (c : Nat)
    (hfail : env.install (detectPackageManager env) (resolvePath cwd name)
      = Except.error c) :
    (run env ⟨some name, some tsv, some esl⟩ cwd).exitCode = 1 ∧
    (run env ⟨some name, some tsv, some esl⟩ cwd).writes
      = (buildArtifacts ⟨name, tsv, esl⟩).map
          (fun a => (joinPath (resolvePath cwd name) a.relativePath, a.content)) := by
  refine ⟨?_, rfl⟩
  simp [run, hfail]

/-- Claim C2, witness: the amended claim instantiated at an environment whose
install subprocess exits with status 1. -/
theorem C2_witness :
    (run envInstallFails ⟨some "my-app", some "5.2.2", some true⟩ "/home/user").exitCode
      = 1 :=
  (C2_theorem envInstallFails "my-app" "5.2.2" true "/home/user" 1 rfl).1

/-- Claim C3 (confirmed): with the feature toggle off the artifact sequence
is exactly manifest, compiler config and the three stubs — no lint
configuration — and the devDependencies of the manifest carry none of the ESLint
block keys while the scripts block has no `lint` entry. -/
theorem C3_theorem (name tsv : String) :
    (buildArtifacts ⟨name, tsv, false⟩).map Artifact.relativePath
      = ["package.json", "tsconfig.json", "index.ts", "server.ts", "routes.ts"] ∧
    List.lookup "eslint" (devDependencies tsv false) = none ∧
    List.lookup "@typescript-eslint/parser" (devDependencies tsv false) = none ∧
    List.lookup "@typescript-eslint/eslint-plugin" (devDependencies tsv false) = none ∧
    List.lookup "lint" (scripts false) = none ∧
    List.lookup "scripts" (packageJsonObj ⟨name, tsv, false⟩)
      = some (Json.obj ((scripts false).map (fun p => (p.1, Json.str p.2)))) ∧
    List.lookup "devDependencies" (packageJsonObj ⟨name, tsv, false⟩)
      = some (Json.obj ((devDependencies tsv false).map (fun p => (p.1, Json.str p.2)))) :=
  ⟨rfl, rfl, rfl, rfl, rfl, rfl, rfl⟩

/-- Claim C4 (confirmed): with the feature toggle on, the lint-configuration
artifact is present and the optional blocks are included wholesale — the
devDependencies gain exactly the three fixed ESLint keys and the scripts
block gains exactly the `lint` entry. -/
theorem C4_theorem (name tsv : String) :
    (buildArtifacts ⟨name, tsv, true⟩).map Artifact.relativePath
      = ["package.json", "tsconfig.json", "eslint.config.mjs",
         "index.ts", "server.ts", "routes.ts"] ∧
    (buildArtifacts ⟨name, tsv, true⟩)[2]?
      = some ⟨"eslint.config.mjs", eslintConfigContent⟩ ∧
    devDependencies tsv true
      = devDependencies tsv false ++
        [("eslint", "^9.29.0"),
         ("@typescript-eslint/parser", "^8.34.1"),
         ("@typescript-eslint/eslint-plugin", "^8.34.1")] ∧
    scripts true
      = [("build", "tsc"),
         ("dev", "ts-node-dev --respawn --transpile-only index.ts"),
         ("lint", "eslint . --ext .ts"),
         ("test", "echo \"Error: no test specified\" && exit 1")] ∧
    List.lookup "lint" (scripts true) = some "eslint . --ext .ts" :=
  ⟨rfl, rfl, rfl, rfl, rfl⟩

/-- Claim C5 (confirmed): the detector returns the highest-priority candidate
among `pnpm`, `yarn`, `bun` whose version probe succeeds and falls back to
`npm` when all fail, and its probe sequence is the failing prefix of the
candidate list followed by the first success, so probing stops there. -/
theorem C5_theorem (env : Env) :
    detectPackageManager env
      = (["pnpm", "yarn", "bun"].find? (fun c => has env c)).getD "npm" ∧
    detectProbes env
      = ["pnpm", "yarn", "bun"].takeWhile (fun c => ! has env c)
        ++ (["pnpm", "yarn", "bun"].dropWhile (fun c => ! has env c)).take 1 := by
  cases h1 : has env "pnpm" <;> cases h2 : has env "yarn" <;>
    cases h3 : has env "bun" <;>
    simp [detectPackageManager, detectProbes, h1, h2, h3]

/-- Claim C6 (confirmed): cancelling at the first prompt yields exit code 1
with no directory created, no file written and no install subprocess
launched. -/
theorem C6_theorem (env : Env) (cwd : String) (tsv : Option String)
    (esl : Option Bool) :
    run env ⟨none, tsv, esl⟩ cwd
      = { mkdirs := [], writes := [], installCwd := none, installCmd := none,
          exitCode := 1 } :=
  rfl

/-- Claim C7 (confirmed): the version-existence check returns a boolean that
is true exactly when its single registry query succeeds; every failure kind
(network error, non-zero exit, timeout) yields `false`, identically to a
non-existent version, no exception escapes, and the result is determined by
that one query alone — no retry consults anything else. -/
theorem C7_theorem (env : Env) (pkg version : String) :
    (versionExists env pkg version = true ↔
      env.npmView pkg version = Except.ok ()) ∧
    (∀ e : ProbeError, env.npmView pkg version = Except.error e →
      versionExists env pkg version = false) ∧
    (∀ env2 : Env, env2.npmView pkg version = env.npmView pkg version →
      versionExists env2 pkg version = versionExists env pkg version) := by
  refine ⟨?_, ?_, ?_⟩
  · unfold versionExists
    cases h : env.npmView pkg version with
    | ok u => cases u; simp
    | error e => simp
  · intro e h
    unfold versionExists
    rw [h]
  · intro env2 h
    unfold versionExists
    rw [h]

/-- Claim C7, witness: with the registry unreachable, the check for
TypeScript `5.2.2` returns `false`. -/
theorem C7_witness :
    versionExists envRegistryDown "typescript" "5.2.2" = false :=
  (C7_theorem envRegistryDown "typescript" "5.2.2").2.1 ProbeError.networkError rfl

/-- Claim C8 (confirmed): the written artifact sequence is a pure function of
the prompt answers — byte-identical and identically ordered across any two
environments (registry, probes, install outcomes), and equal to the
`buildArtifacts` sequence placed under the resolved project directory. -/
theorem C8_theorem (env env2 : Env) (name tsv : String) (esl : Bool)
    (cwd : String) :
    (run env ⟨some name, some tsv, some esl⟩ cwd).writes
      = (run env2 ⟨some name, some tsv, some esl⟩ cwd).writes ∧
    (run env ⟨some name, some tsv, some esl⟩ cwd).writes
      = (buildArtifacts ⟨name, tsv, esl⟩).map
          (fun a => (joinPath (resolvePath cwd name) a.relativePath, a.content)) :=
  ⟨rfl, rfl⟩

/-- Claim C9 (confirmed): the first prompt accepts any non-empty name and
nothing else; the accepted name is used verbatim as the manifest `name`
field and as the path resolved against the cwd, the directory being created
with `recursive: true`; a name with separators nests below the cwd and a
name with `..` escapes it. -/
theorem C9_theorem :
    (∀ name : String, projectNameValidate name = Except.ok () ↔ name ≠ "") ∧
    (∀ cfg : ProjectConfig,
      List.lookup "name" (packageJsonObj cfg) = some (Json.str cfg.projectName)) ∧
    (∀ (env : Env) (name tsv : String) (esl : Bool) (cwd : String),
      (run env ⟨some name, some tsv, some esl⟩ cwd).mkdirs
        = [(resolvePath cwd name, true)]) ∧
    resolvePath "/home/user" "nested/app" = ["home", "user", "nested", "app"] ∧
    resolvePath "/home/user" "../outside" = ["home", "outside"] ∧
    (["home", "user"].isPrefixOf ["home", "outside"]) = false := by
  refine ⟨?_, fun _ => rfl, fun _ _ _ _ _ => rfl, rfl, rfl, rfl⟩
  intro name
  constructor
  · intro h hname
    simp [projectNameValidate, jsTruthyString, hname] at h
  · intro h
    simp [projectNameValidate, jsTruthyString, h]

/-- Claim C9, witness: the validator accepts `my-app` and rejects the empty
name, and the directory for the name `../outside` escapes `/home/user`. -/
theorem C9_witness :
    projectNameValidate "my-app" = Except.ok () ∧
    (["home", "user"].isPrefixOf (resolvePath "/home/user" "../outside")) = false := by
  refine ⟨(C9_theorem.1 "my-app").mpr (by decide), ?_⟩
  rw [C9_theorem.2.2.2.2.1]
  exact C9_theorem.2.2.2.2.2

/-- Claim C10 (confirmed): the devDependencies of the manifest pin `typescript` to
exactly the prompted version string, verbatim, while the value of every other
entry carries the caret range operator. -/
theorem C10_theorem (tsv : String) (esl : Bool) :
    List.lookup "typescript" (devDependencies tsv esl) = some tsv ∧
    ((devDependencies tsv esl).filter (fun p => p.1 != "typescript")).all
      (fun p => p.2.data.head? == some '^') = true := by
  cases esl <;> exact ⟨rfl, rfl⟩
